import Mathlib

/-!
# ChemView simulation-and-safety core: a shallow embedding

This file embeds the core state and operations of the ChemView HMI
dashboard (`src/components/chemical-mixing/Dashboard.tsx`, the variant
whose `toggleValve` interlock uses the strict `rpm >= 1` threshold, with
`ControlPanel.tsx` as its view) and proves the testable properties of its
specification against that embedding.

Modelling conventions:
* JavaScript numbers are modelled as `ℚ`; every arithmetic step in the
  source is linear, so rational arithmetic captures it exactly.
* `Math.random()` draws and the generated ids / formatted timestamps are
  environment inputs; each operation receives them explicitly (structures
  `RxEnv`, `CmdEnv`, `AlertEnv`, `TickRand`).
* React `useState` cells become fields of a single `DashState` record.
  Transient presentation-only cells (`rxActive`/`txActive` blink flags,
  `isAiProcessing`, the constant `connectionStatus`, and the chart history
  buffers written by the render-loop effect rather than by `tick`) are not
  part of the observable state the properties below speak about and are
  omitted.
* Toast notifications become the `Option String` component of the
  result of a command: `some reason` is a surfaced interlock denial, `none` means the
  command was applied.
-/

namespace ChemView

/-- Alert/audit urgency classification (`low | medium | high` in the source). -/
inductive Severity
  | low
  | medium
  | high
deriving DecidableEq, Repr

/-- Direction tag of a synthetic protocol exchange (`RX | TX` in the source). -/
inductive Direction
  | RX
  | TX
deriving DecidableEq, Repr

/-- An audit-log entry (`LogEntry` in Dashboard.tsx). -/
structure LogEntry where
  id : String
  timestamp : String
  message : String
  level : Severity
deriving DecidableEq, Repr

/-- A traffic-log entry (`TrafficEntry` in Dashboard.tsx). -/
structure TrafficEntry where
  id : String
  timestamp : String
  direction : Direction
  frame : String
deriving DecidableEq, Repr

/-- An alert record.  The source stores
`{ id, timestamp, data: { alertMessage, urgencyLevel } }`; the nested
`data` object is flattened into the two payload fields. -/
structure AlertRecord where
  id : String
  timestamp : String
  alertMessage : String
  urgencyLevel : Severity
deriving DecidableEq, Repr

/-- The dashboard state: one field per `useState` cell of the core
(omitting the presentation-only cells listed in the header comment). -/
structure DashState where
  isRunning : Bool
  isManualMode : Bool
  isHeaterOn : Bool
  rpm : ℚ
  temp : ℚ
  ph : ℚ
  valveOpen : Bool
  targetRpmManual : ℚ
  targetTempManual : ℚ
  alerts : List AlertRecord
  auditLog : List LogEntry
  trafficLogs : List TrafficEntry
  packetCount : ℕ
  latency : ℚ
deriving DecidableEq, Repr

/-- The initial state of every `useState` cell. -/
def initState : DashState :=
  { isRunning := false
    isManualMode := false
    isHeaterOn := false
    rpm := 0
    temp := 49/2           -- 24.5
    ph := 7
    valveOpen := false
    targetRpmManual := 500
    targetTempManual := 60
    alerts := []
    auditLog := []
    trafficLogs := []
    packetCount := 0
    latency := 76/5 }      -- 15.2

/-- Frame text builder `generateModbusFrame`: header `"00 01 00 00 00"`, length `06`, unit id
`01`, function code `03` (read) or `05` (write), then the 4 random hex
payload bytes (the payload string is an environment input). -/
def generateModbusFrame (isRead : Bool) (payload : String) : String :=
  "00 01 00 00 00" ++ " 06 " ++ "01" ++ " " ++
    (if isRead then "03" else "05") ++ " " ++ payload

/-- Environment inputs consumed by one `triggerRx` call: the generated id,
the formatted timestamp, the 4 random payload bytes, and the
`Math.random()` draw for the latency update. -/
structure RxEnv where
  id : String
  timestamp : String
  payload : String
  latRand : ℚ
deriving Repr

/-- Environment inputs consumed by one `triggerTx` call. -/
structure TxEnv where
  id : String
  timestamp : String
  payload : String
deriving Repr

/-- The traffic-log discipline `[...prev, entry].slice(-50)`: append at the tail and keep the last
50 entries. -/
def trafficAppend (entry : TrafficEntry) (logs : List TrafficEntry) :
    List TrafficEntry :=
  let l := logs ++ [entry]
  l.drop (l.length - 50)

/-- TX emission `triggerTx`: increment the packet counter and append a TX frame
(the 150 ms `txActive` blink is presentation-only and omitted). -/
def triggerTx (e : TxEnv) (s : DashState) : DashState :=
  { s with
    packetCount := s.packetCount + 1
    trafficLogs := trafficAppend
      { id := e.id, timestamp := e.timestamp, direction := Direction.TX
        frame := generateModbusFrame false e.payload } s.trafficLogs }

/-- RX emission `triggerRx`: increment the packet counter, refresh the simulated
latency (`12 + Math.random() * 6`), and append an RX frame. -/
def triggerRx (e : RxEnv) (s : DashState) : DashState :=
  { s with
    packetCount := s.packetCount + 1
    latency := 12 + e.latRand * 6
    trafficLogs := trafficAppend
      { id := e.id, timestamp := e.timestamp, direction := Direction.RX
        frame := generateModbusFrame true e.payload } s.trafficLogs }

/-- Random draws consumed by one `tick`: the RX-traffic environment plus
the fresh `Math.random()` values for the RPM target jitter, the
temperature noise, and the pH target.  Each draw lies in `[0, 1)` when
the source runs; theorems assume only what they need about them. -/
structure TickRand where
  rx : RxEnv
  rpmRand : ℚ
  tempRand : ℚ
  phRand : ℚ
deriving Repr

/-- The core physical simulation step (`tick` in Dashboard.tsx): RX
traffic, then RPM / temperature / pH dynamics.  `valveOpen` and all
command state are untouched. -/
def tick (r : TickRand) (s : DashState) : DashState :=
  let rpm' :=
    if s.isRunning = false then
      max 0 (s.rpm - 15)
    else
      let targetRpm := if s.isManualMode then s.targetRpmManual
                       else 450 + r.rpmRand * 50
      s.rpm + (targetRpm - s.rpm) * (1/10)
  let temp' :=
    if s.isHeaterOn then
      let target := if s.isManualMode then s.targetTempManual else 75
      if s.temp < target then s.temp + 15/100
      else s.temp + (r.tempRand - 1/2) * (1/10)
    else
      if s.temp > 22 then s.temp - 5/100
      else s.temp + (r.tempRand - 1/2) * (2/100)
  let targetPh := 72/10 + r.phRand * (4/10)
  let ph' := s.ph + (targetPh - s.ph) * (5/100)
  { triggerRx r.rx s with rpm := rpm', temp := temp', ph := ph' }

/-- The alert message texts of `checkAlerts`. -/
def overheatingMsg : String :=
  "⚠️ AI Insight: Overheating detected in Reactor B7. Recommend cooling cycle."

/-- Medium-urgency message of `checkAlerts`. -/
def mixerMsg : String :=
  "⚠️ AI Insight: Mixer efficiency low. Check motor load."

/-- Nominal (low-urgency) message of `checkAlerts`. -/
def nominalMsg : String :=
  "✅ AI Analysis: System operating within optimal parameters."

/-- The rule table of `checkAlerts` (first match wins):
`temp > 80` → high; `rpm < 100 && isRunning && valveOpen` → medium;
otherwise low.  Returns the message/urgency pair. -/
def alertFor (temp rpm : ℚ) (running valveOpen : Bool) :
    String × Severity :=
  if temp > 80 then (overheatingMsg, Severity.high)
  else if rpm < 100 ∧ running = true ∧ valveOpen = true then
    (mixerMsg, Severity.medium)
  else (nominalMsg, Severity.low)

/-- Environment inputs consumed by one `checkAlerts` evaluation: the
generated id / timestamp of the audit entry and of the alert record. -/
structure AlertEnv where
  auditId : String
  auditTimestamp : String
  alertId : String
  alertTimestamp : String
deriving Repr

/-- The non-duplicate branch of `checkAlerts`: audit append for non-low
urgency, then prepend the alert record capped at 5. -/
def checkAlertsApply (e : AlertEnv) (s : DashState)
    (msg : String) (urg : Severity) : DashState :=
  let auditEntry : LogEntry :=
    { id := e.auditId, timestamp := e.auditTimestamp
      message := msg, level := urg }
  let alertEntry : AlertRecord :=
    { id := e.alertId, timestamp := e.alertTimestamp
      alertMessage := msg, urgencyLevel := urg }
  let auditLog' :=
    if urg = Severity.low then s.auditLog
    else List.take 50 (auditEntry :: s.auditLog)
  { s with
    alerts := List.take 5 (alertEntry :: s.alerts)
    auditLog := auditLog' }

/-- Alerting Engine evaluation `checkAlerts`: compute the
message/urgency pair from the current plant state, drop it when the
newest existing alert carries the identical message (no append, no audit
side-effect), otherwise append to the alert list (cap 5, newest first)
and, for non-low urgency, to the audit log (cap 50, newest first).  The
transient `isAiProcessing` flag and the 800 ms delay are timing-only and
omitted. -/
def checkAlerts (e : AlertEnv) (s : DashState) : DashState :=
  let p := alertFor s.temp s.rpm s.isRunning s.valveOpen
  match s.alerts with
  | a :: _ => if a.alertMessage = p.1 then s else checkAlertsApply e s p.1 p.2
  | [] => checkAlertsApply e s p.1 p.2

/-- Environment inputs consumed by one operator command: the generated
id / timestamp of its audit entry and the `triggerTx` inputs. -/
structure CmdEnv where
  id : String
  timestamp : String
  tx : TxEnv
deriving Repr

/-- The audit-log discipline of `[entry, ...log].slice(0, 50)`:
`List.take 50 (entry :: log)` (newest first, cap 50). -/
def auditAppend (entry : LogEntry) (log : List LogEntry) : List LogEntry :=
  List.take 50 (entry :: log)

/-- Denial reason toasted by `toggleRunning` while the valve is open. -/
def mixerDenyMsg : String :=
  "⛔ Mixer cannot be started while Discharge Valve is OPEN."

/-- Denial reason toasted by `toggleValve` while the mixer turns. -/
def valveDenyMsg : String :=
  "⛔ Safety Lock: Wait for 0 RPM before discharging."

/-- Start/stop command `toggleRunning`: denied (destructive toast, state unchanged) when the
mixer is stopped and the discharge valve is open; otherwise flip
`isRunning`, emit a TX write, and audit the start/stop. -/
def toggleRunning (e : CmdEnv) (s : DashState) : DashState × Option String :=
  if s.isRunning = false ∧ s.valveOpen = true then
    (s, some mixerDenyMsg)
  else
    let newState := !s.isRunning
    let s1 := triggerTx e.tx ({ s with isRunning := newState })
    let entry : LogEntry :=
      { id := e.id, timestamp := e.timestamp
        message := "INFO: Mixer " ++
          (if newState then "STARTED" else "STOPPED") ++ " by Operator"
        level := Severity.low }
    ({ s1 with auditLog := auditAppend entry s1.auditLog }, none)

/-- Valve command `toggleValve`: denied (destructive toast, state unchanged) when the
mixer is running or `rpm >= 1`; otherwise flip `valveOpen`, emit a TX
write, and audit the open/close. -/
def toggleValve (e : CmdEnv) (s : DashState) : DashState × Option String :=
  if s.isRunning = true ∨ s.rpm ≥ 1 then
    (s, some valveDenyMsg)
  else
    let newState := !s.valveOpen
    let s1 := triggerTx e.tx ({ s with valveOpen := newState })
    let entry : LogEntry :=
      { id := e.id, timestamp := e.timestamp
        message := "INFO: Discharge Valve " ++
          (if newState then "OPENED" else "CLOSED") ++ " by Operator"
        level := Severity.low }
    ({ s1 with auditLog := auditAppend entry s1.auditLog }, none)

/-- Heater command `toggleHeater`: unconditional flip of `isHeaterOn`, TX write, and an
audit entry.  (`toString` of the setpoint stands in for the JS
`toFixed(1)` decimal rendering; no property depends on that text.) -/
def toggleHeater (e : CmdEnv) (s : DashState) : DashState :=
  let newState := !s.isHeaterOn
  let s1 := triggerTx e.tx ({ s with isHeaterOn := newState })
  let entry : LogEntry :=
    { id := e.id, timestamp := e.timestamp
      message := "INFO: Heater System " ++
        (if newState then "ACTIVATED" else "DEACTIVATED") ++
        " - Setpoint: " ++ toString s.targetTempManual ++ "°C"
      level := Severity.low }
  { s1 with auditLog := auditAppend entry s1.auditLog }

/-- Emergency stop `emergencyStop`: unconditionally force `isRunning = false`,
`isHeaterOn = false`, `rpm = 0`, emit a TX write, and audit with `high`
severity. -/
def emergencyStop (e : CmdEnv) (s : DashState) : DashState :=
  let s1 := triggerTx e.tx
    ({ s with isRunning := false, isHeaterOn := false, rpm := 0 })
  let entry : LogEntry :=
    { id := e.id, timestamp := e.timestamp
      message := "EMERGENCY STOP TRIGGERED BY OPERATOR"
      level := Severity.high }
  { s1 with auditLog := auditAppend entry s1.auditLog }

/-- Mode command `onToggleMode`: flip `isManualMode` and emit a TX write. -/
def toggleMode (e : CmdEnv) (s : DashState) : DashState :=
  triggerTx e.tx ({ s with isManualMode := !s.isManualMode })

/-- Speed-setpoint write `setTargetRpm` as wired in the Dashboard: store the value received
from the control and emit a TX write (no clamping here; the slider
control clamps before calling, see `sliderEmit`). -/
def setTargetRpm (e : CmdEnv) (v : ℚ) (s : DashState) : DashState :=
  triggerTx e.tx ({ s with targetRpmManual := v })

/-- Temperature-setpoint write `setTargetTemp` as wired in the Dashboard: store the value received
from the control and emit a TX write. -/
def setTargetTemp (e : CmdEnv) (v : ℚ) (s : DashState) : DashState :=
  triggerTx e.tx ({ s with targetTempManual := v })

/-- Modelled from the spec: the `Slider` UI component
(`@/components/ui/slider`, not under src/) emits only values clamped to
its `min`/`max` bounds — "Invariant: setpoints are clamped to domain on
write".  `ControlPanel.tsx` instantiates it with min 0 / max 1500 for the
speed setpoint and min 20 / max 100 for the temperature setpoint. -/
def sliderEmit (lo hi v : ℚ) : ℚ := max lo (min hi v)

/-- The manual speed-setpoint write as reachable through the control
panel: the slider clamps to `[0, 1500]`, the Dashboard stores the result. -/
def setTargetRpmFromSlider (e : CmdEnv) (v : ℚ) (s : DashState) : DashState :=
  setTargetRpm e (sliderEmit 0 1500 v) s

/-- The manual temperature-setpoint write as reachable through the
control panel: the slider clamps to `[20, 100]`, the Dashboard stores the
result. -/
def setTargetTempFromSlider (e : CmdEnv) (v : ℚ) (s : DashState) : DashState :=
  setTargetTemp e (sliderEmit 20 100 v) s

/-- One externally triggerable transition of the dashboard: a simulation
tick, an alert evaluation, or one operator command. -/
inductive Cmd
  | tickCmd (r : TickRand)
  | alertCmd (e : AlertEnv)
  | runCmd (e : CmdEnv)
  | valveCmd (e : CmdEnv)
  | heaterCmd (e : CmdEnv)
  | stopCmd (e : CmdEnv)
  | modeCmd (e : CmdEnv)
  | rpmCmd (e : CmdEnv) (v : ℚ)
  | tempCmd (e : CmdEnv) (v : ℚ)

/-- The state transition denoted by one `Cmd` (denied commands leave the
state as the handlers return it). -/
def step (c : Cmd) (s : DashState) : DashState :=
  match c with
  | Cmd.tickCmd r => tick r s
  | Cmd.alertCmd e => checkAlerts e s
  | Cmd.runCmd e => (toggleRunning e s).1
  | Cmd.valveCmd e => (toggleValve e s).1
  | Cmd.heaterCmd e => toggleHeater e s
  | Cmd.stopCmd e => emergencyStop e s
  | Cmd.modeCmd e => toggleMode e s
  | Cmd.rpmCmd e v => setTargetRpmFromSlider e v s
  | Cmd.tempCmd e v => setTargetTempFromSlider e v s

/-- Run a command sequence from the initial state. -/
def run (cs : List Cmd) : DashState :=
  cs.foldl (fun s c => step c s) initState

/-! ## Concrete fixtures used by witness theorems -/

/-- A concrete TX environment. -/
def wTx : TxEnv := { id := "tx0", timestamp := "t0", payload := "AA BB CC DD" }

/-- A concrete command environment. -/
def wCmd : CmdEnv := { id := "a0", timestamp := "t0", tx := wTx }

/-- A concrete RX environment. -/
def wRx : RxEnv :=
  { id := "rx0", timestamp := "t0", payload := "AA BB CC DD", latRand := 1/2 }

/-- A concrete set of tick random draws. -/
def wTick : TickRand := { rx := wRx, rpmRand := 1/2, tempRand := 1/2, phRand := 1/2 }

/-- A concrete alert-evaluation environment. -/
def wAlert : AlertEnv :=
  { auditId := "au0", auditTimestamp := "t0"
    alertId := "al0", alertTimestamp := "t0" }

/-- The initial state with the discharge valve open. -/
def wValveOpenState : DashState := { initState with valveOpen := true }

/-- The initial state with the mixer running. -/
def wRunningState : DashState := { initState with isRunning := true }

/-- The initial state carrying one nominal alert (the alert `checkAlerts`
produces for the initial plant readings). -/
def wAlertState : DashState :=
  { initState with alerts :=
      [{ id := "al", timestamp := "t", alertMessage := nominalMsg
         urgencyLevel := Severity.low }] }

/-! ## Claims -/

/-- C1: the valve-toggle command is denied — the state (hence the valve)
stays unchanged and a denial reason is surfaced to the operator — exactly
when `isRunning == true` or `rpm >= 1` (the documented strict near-zero
threshold); otherwise it is allowed: no denial is surfaced and the valve
flips. -/
theorem toggleValve_interlock (e : CmdEnv) (s : DashState) :
    ((toggleValve e s).2.isSome = true ↔ (s.isRunning = true ∨ 1 ≤ s.rpm))
    ∧ ((s.isRunning = true ∨ 1 ≤ s.rpm) → (toggleValve e s).1 = s)
    ∧ ((s.isRunning = false ∧ s.rpm < 1) →
        (toggleValve e s).2 = none ∧
        (toggleValve e s).1.valveOpen = !s.valveOpen) := by
  by_cases h : s.isRunning = true ∨ 1 ≤ s.rpm
  · refine ⟨by simp [toggleValve, h], fun _ => by simp [toggleValve, h], ?_⟩
    rintro ⟨h1, h2⟩
    rcases h with h | h
    · rw [h1] at h
      exact absurd h (by simp)
    · exact absurd h (not_le.mpr h2)
  · refine ⟨by simp [toggleValve, h], fun hc => absurd hc h, fun _ => ?_⟩
    constructor
    · simp [toggleValve, h]
    · simp [toggleValve, h, triggerTx]

/-- Witness for C1 at two concrete states: denied with the mixer running,
allowed from the initial state. -/
theorem toggleValve_interlock_witness :
    (toggleValve wCmd wRunningState).1 = wRunningState
    ∧ (toggleValve wCmd initState).2 = none
    ∧ (toggleValve wCmd initState).1.valveOpen = !initState.valveOpen :=
  ⟨(toggleValve_interlock wCmd wRunningState).2.1 (Or.inl rfl),
   ((toggleValve_interlock wCmd initState).2.2 ⟨rfl, by norm_num [initState]⟩).1,
   ((toggleValve_interlock wCmd initState).2.2 ⟨rfl, by norm_num [initState]⟩).2⟩

/-- C2, counterexample: at `temp = 82` the computed severity is `high`
although `82 ≤ 85`, so severity `high` is not equivalent to
`temperatureC > 85` (the threshold in the code is 80). -/
theorem alert_high_cex :
    (alertFor 82 0 false false).2 = Severity.high ∧ (82 : ℚ) ≤ 85 := by
  constructor
  · norm_num [alertFor]
  · norm_num

/-- C2 (amended): the computed severity is `high` exactly when
`temperatureC > 80` (rule 1 is the only rule producing `high` and it
matches first whenever `temperatureC > 80`). -/
theorem alert_high_iff (temp rpm : ℚ) (running valveOpen : Bool) :
    (alertFor temp rpm running valveOpen).2 = Severity.high ↔ 80 < temp := by
  unfold alertFor
  split
  · simp_all
  · split <;> simp_all

/-- C3, counterexample: at `temp = 50`, `rpm = 50`, `running = true`,
`valveOpen = false` the conditions of the claim for `medium`
(`temp ≤ 85`, `rpm < 100`, `running`) all hold, yet the computed
severity is `low` (the code additionally requires `valveOpen`). -/
theorem alert_medium_cex :
    (alertFor 50 50 true false).2 = Severity.low
    ∧ (50 : ℚ) ≤ 85 ∧ (50 : ℚ) < 100 := by
  refine ⟨?_, by norm_num, by norm_num⟩
  norm_num [alertFor]

/-- C3 (amended): the computed severity is `medium` exactly when
`temperatureC ≤ 80` and `speedRpm < 100` and `running == true` and
`valveOpen == true`, and `low` exactly when `temperatureC ≤ 80` and that
medium condition fails. -/
theorem alert_medium_iff (temp rpm : ℚ) (running valveOpen : Bool) :
    ((alertFor temp rpm running valveOpen).2 = Severity.medium ↔
      (temp ≤ 80 ∧ rpm < 100 ∧ running = true ∧ valveOpen = true))
    ∧ ((alertFor temp rpm running valveOpen).2 = Severity.low ↔
      (temp ≤ 80 ∧ (100 ≤ rpm ∨ running = false ∨ valveOpen = false))) := by
  unfold alertFor
  by_cases ht : (80 : ℚ) < temp
  · rw [if_pos ht]
    constructor
    · constructor
      · intro hEq
        exact absurd hEq (by decide)
      · rintro ⟨hle, _⟩
        exact absurd ht (not_lt.mpr hle)
    · constructor
      · intro hEq
        exact absurd hEq (by decide)
      · rintro ⟨hle, _⟩
        exact absurd ht (not_lt.mpr hle)
  · rw [if_neg ht]
    have hle : temp ≤ 80 := not_lt.mp ht
    by_cases hm : rpm < 100 ∧ running = true ∧ valveOpen = true
    · rw [if_pos hm]
      constructor
      · simp [hle, hm.1, hm.2.1, hm.2.2]
      · simp [hle, hm.2.1, hm.2.2, not_le.mpr hm.1]
    · rw [if_neg hm]
      constructor
      · constructor
        · intro hEq
          exact absurd hEq (by decide)
        · rintro ⟨_, h1, h2, h3⟩
          exact absurd ⟨h1, h2, h3⟩ hm
      · constructor
        · intro _
          refine ⟨hle, ?_⟩
          by_cases h1 : rpm < 100
          · by_cases h2 : running = true
            · have h3 : ¬ valveOpen = true := fun h3 => hm ⟨h1, h2, h3⟩
              exact Or.inr (Or.inr (by simpa using h3))
            · exact Or.inr (Or.inl (by simpa using h2))
          · exact Or.inl (not_lt.mp h1)
        · intro _
          rfl

/-- C4: from every prior state, `emergencyStop` forces `running = false`,
`heaterOn = false`, `speed = 0`, and prepends exactly one `high`-severity
audit record (the log then capped at 50). -/
theorem emergencyStop_unconditional (e : CmdEnv) (s : DashState) :
    (emergencyStop e s).isRunning = false
    ∧ (emergencyStop e s).isHeaterOn = false
    ∧ (emergencyStop e s).rpm = 0
    ∧ (emergencyStop e s).auditLog = List.take 50
        ({ id := e.id, timestamp := e.timestamp
           message := "EMERGENCY STOP TRIGGERED BY OPERATOR"
           level := Severity.high } :: s.auditLog) := by
  refine ⟨rfl, rfl, rfl, rfl⟩

/-- C6: a start request with the valve open and the mixer stopped is
denied — the state (hence `running` and the audit log) is unchanged and
the interlock reason is surfaced as a toast, not an exception. -/
theorem toggleRunning_denied (e : CmdEnv) (s : DashState)
    (hr : s.isRunning = false) (hv : s.valveOpen = true) :
    toggleRunning e s =
      (s, some mixerDenyMsg) := by
  unfold toggleRunning
  rw [if_pos ⟨hr, hv⟩]

/-- Witness for C6 at the initial state with the valve open. -/
theorem toggleRunning_denied_witness :
    toggleRunning wCmd wValveOpenState =
      (wValveOpenState,
        some mixerDenyMsg) :=
  toggleRunning_denied wCmd wValveOpenState rfl rfl

/-- C7: one tick keeps the speed non-negative: from `rpm ≥ 0`, any
command state with its manual speed setpoint in domain (`≥ 0`, which the
slider write guarantees) and any random draw `≥ 0` yield `rpm ≥ 0` —
the stopped branch decays by 15 with a floor at 0, the running branch
moves a fraction 1/10 toward a non-negative target. -/
theorem tick_rpm_nonneg (r : TickRand) (s : DashState)
    (hrpm : 0 ≤ s.rpm) (htarget : 0 ≤ s.targetRpmManual)
    (hrand : 0 ≤ r.rpmRand) :
    0 ≤ (tick r s).rpm := by
  show 0 ≤ (if s.isRunning = false then max 0 (s.rpm - 15)
    else s.rpm + ((if s.isManualMode then s.targetRpmManual
          else 450 + r.rpmRand * 50) - s.rpm) * (1/10))
  split
  · exact le_max_left 0 _
  · split
    · linarith
    · linarith

/-- Witness for C7 at the initial state and concrete draws. -/
theorem tick_rpm_nonneg_witness : 0 ≤ (tick wTick initState).rpm :=
  tick_rpm_nonneg wTick initState (by norm_num [initState])
    (by norm_num [initState]) (by norm_num [wTick, wRx])

/-- C8: the setpoint writes reachable through the control panel store a
clamped value: the speed setpoint ends in `[0, 1500]` and the
temperature setpoint in `[20, 100]`, for every input value. -/
theorem setpoints_clamped (e1 e2 : CmdEnv) (v w : ℚ) (s : DashState) :
    (0 ≤ (setTargetRpmFromSlider e1 v s).targetRpmManual
      ∧ (setTargetRpmFromSlider e1 v s).targetRpmManual ≤ 1500)
    ∧ (20 ≤ (setTargetTempFromSlider e2 w s).targetTempManual
      ∧ (setTargetTempFromSlider e2 w s).targetTempManual ≤ 100) := by
  have h1 : (setTargetRpmFromSlider e1 v s).targetRpmManual =
      sliderEmit 0 1500 v := rfl
  have h2 : (setTargetTempFromSlider e2 w s).targetTempManual =
      sliderEmit 20 100 w := rfl
  rw [h1, h2]
  unfold sliderEmit
  refine ⟨⟨le_max_left _ _, max_le (by norm_num) (min_le_left _ _)⟩,
    ⟨le_max_left _ _, max_le (by norm_num) (min_le_left _ _)⟩⟩

/-- C10: `emergencyStop` leaves `valveOpen` (an open discharge valve is
not closed), `manualMode`, the temperature, the acidity, both manual
setpoints, and the alert list unchanged. -/
theorem emergencyStop_frame (e : CmdEnv) (s : DashState) :
    (emergencyStop e s).valveOpen = s.valveOpen
    ∧ (emergencyStop e s).isManualMode = s.isManualMode
    ∧ (emergencyStop e s).temp = s.temp
    ∧ (emergencyStop e s).ph = s.ph
    ∧ (emergencyStop e s).targetRpmManual = s.targetRpmManual
    ∧ (emergencyStop e s).targetTempManual = s.targetTempManual
    ∧ (emergencyStop e s).alerts = s.alerts := by
  refine ⟨rfl, rfl, rfl, rfl, rfl, rfl, rfl⟩

/-! ## Helper lemmas shared by the alerting and invariant proofs -/

/-- Evaluation `checkAlerts` never touches the plant/command fields. -/
theorem checkAlerts_plant_fields (e : AlertEnv) (s : DashState) :
    (checkAlerts e s).temp = s.temp
    ∧ (checkAlerts e s).rpm = s.rpm
    ∧ (checkAlerts e s).isRunning = s.isRunning
    ∧ (checkAlerts e s).valveOpen = s.valveOpen := by
  unfold checkAlerts
  rcases hA : s.alerts with _ | ⟨a, rest⟩
  · exact ⟨rfl, rfl, rfl, rfl⟩
  · dsimp only
    split
    · exact ⟨rfl, rfl, rfl, rfl⟩
    · exact ⟨rfl, rfl, rfl, rfl⟩

/-- A `checkAlerts` evaluation whose newest existing alert already
carries the computed message returns the state unchanged. -/
theorem checkAlerts_dup (e : AlertEnv) (t : DashState) (a : AlertRecord)
    (rest : List AlertRecord) (hl : t.alerts = a :: rest)
    (hm : a.alertMessage = (alertFor t.temp t.rpm t.isRunning t.valveOpen).1) :
    checkAlerts e t = t := by
  unfold checkAlerts
  rw [hl]
  dsimp only
  rw [if_pos hm]

/-- The alert list after the non-duplicate branch: the new record in
front of the previous list capped at 4 survivors. -/
theorem checkAlertsApply_alerts (e : AlertEnv) (s : DashState)
    (msg : String) (urg : Severity) :
    (checkAlertsApply e s msg urg).alerts =
      { id := e.alertId, timestamp := e.alertTimestamp
        alertMessage := msg, urgencyLevel := urg } :: List.take 4 s.alerts := by
  show List.take 5 (_ :: s.alerts) = _
  rw [List.take_succ_cons]

/-- C5: the Alerting Engine is idempotent under an unchanged plant
state — when the newest existing alert carries the identical message the
evaluation is a no-op (alert list and audit log unchanged), and an
immediately repeated evaluation never changes anything, so repeated
evaluations under one plant state append at most one alert record. -/
theorem checkAlerts_idempotent (e1 e2 : AlertEnv) (s : DashState) :
    ((∃ a rest, s.alerts = a :: rest ∧
        a.alertMessage = (alertFor s.temp s.rpm s.isRunning s.valveOpen).1) →
      checkAlerts e1 s = s)
    ∧ checkAlerts e2 (checkAlerts e1 s) = checkAlerts e1 s := by
  have happly : ∀ (msg : String) (urg : Severity),
      msg = (alertFor s.temp s.rpm s.isRunning s.valveOpen).1 →
      checkAlerts e2 (checkAlertsApply e1 s msg urg) =
        checkAlertsApply e1 s msg urg := by
    intro msg urg hmsg
    have hp := checkAlerts_plant_fields e1 s
    have hfields : (checkAlertsApply e1 s msg urg).temp = s.temp
        ∧ (checkAlertsApply e1 s msg urg).rpm = s.rpm
        ∧ (checkAlertsApply e1 s msg urg).isRunning = s.isRunning
        ∧ (checkAlertsApply e1 s msg urg).valveOpen = s.valveOpen :=
      ⟨rfl, rfl, rfl, rfl⟩
    refine checkAlerts_dup e2 _ _ _ (checkAlertsApply_alerts e1 s msg urg) ?_
    show msg = _
    rw [hfields.1, hfields.2.1, hfields.2.2.1, hfields.2.2.2]
    exact hmsg
  constructor
  · rintro ⟨a, rest, hl, hm⟩
    exact checkAlerts_dup e1 s a rest hl hm
  · rcases hA : s.alerts with _ | ⟨a, rest⟩
    · have h1 : checkAlerts e1 s =
          checkAlertsApply e1 s (alertFor s.temp s.rpm s.isRunning s.valveOpen).1
            (alertFor s.temp s.rpm s.isRunning s.valveOpen).2 := by
        unfold checkAlerts
        rw [hA]
      rw [h1]
      exact happly _ _ rfl
    · by_cases hm : a.alertMessage =
          (alertFor s.temp s.rpm s.isRunning s.valveOpen).1
      · have h1 : checkAlerts e1 s = s := checkAlerts_dup e1 s a rest hA hm
        rw [h1]
        exact checkAlerts_dup e2 s a rest hA hm
      · have h1 : checkAlerts e1 s =
            checkAlertsApply e1 s (alertFor s.temp s.rpm s.isRunning s.valveOpen).1
              (alertFor s.temp s.rpm s.isRunning s.valveOpen).2 := by
          unfold checkAlerts
          rw [hA]
          dsimp only
          rw [if_neg hm]
        rw [h1]
        exact happly _ _ rfl

/-- Witness for C5: at the initial readings carrying one nominal alert,
the evaluation is a no-op and re-evaluation changes nothing. -/
theorem checkAlerts_idempotent_witness :
    checkAlerts wAlert wAlertState = wAlertState
    ∧ checkAlerts wAlert (checkAlerts wAlert wAlertState) =
        checkAlerts wAlert wAlertState :=
  ⟨(checkAlerts_idempotent wAlert wAlert wAlertState).1
      ⟨_, [], rfl, by norm_num [wAlertState, initState, alertFor]⟩,
   (checkAlerts_idempotent wAlert wAlert wAlertState).2⟩

/-- Every single transition preserves the mixer/valve mutual exclusion. -/
theorem step_mutex (c : Cmd) (s : DashState)
    (h : (s.isRunning && s.valveOpen) = false) :
    ((step c s).isRunning && (step c s).valveOpen) = false := by
  cases c with
  | tickCmd r => exact h
  | alertCmd e =>
    have hp := checkAlerts_plant_fields e s
    show ((checkAlerts e s).isRunning && (checkAlerts e s).valveOpen) = false
    rw [hp.2.2.1, hp.2.2.2]
    exact h
  | runCmd e =>
    show ((toggleRunning e s).1.isRunning && (toggleRunning e s).1.valveOpen)
      = false
    by_cases hcond : s.isRunning = false ∧ s.valveOpen = true
    · unfold toggleRunning
      rw [if_pos hcond]
      exact h
    · unfold toggleRunning
      rw [if_neg hcond]
      show (!s.isRunning && s.valveOpen) = false
      cases hR : s.isRunning with
      | true => simp
      | false =>
        cases hV : s.valveOpen with
        | false => simp
        | true => exact absurd ⟨hR, hV⟩ hcond
  | valveCmd e =>
    show ((toggleValve e s).1.isRunning && (toggleValve e s).1.valveOpen)
      = false
    by_cases hcond : s.isRunning = true ∨ s.rpm ≥ 1
    · unfold toggleValve
      rw [if_pos hcond]
      exact h
    · unfold toggleValve
      rw [if_neg hcond]
      show (s.isRunning && !s.valveOpen) = false
      have hR : s.isRunning = false := by
        cases hR : s.isRunning with
        | false => rfl
        | true => exact absurd (Or.inl hR) hcond
      rw [hR]
      rfl
  | heaterCmd e => exact h
  | stopCmd e =>
    show ((emergencyStop e s).isRunning && (emergencyStop e s).valveOpen)
      = false
    rfl
  | modeCmd e => exact h
  | rpmCmd e v => exact h
  | tempCmd e v => exact h

/-- C9: in every state reachable from the initial state by ticks, alert
evaluations, and operator commands, the mixer and the open discharge
valve are mutually exclusive: `isRunning && valveOpen` is never true. -/
theorem mixer_valve_mutex (cs : List Cmd) :
    ((run cs).isRunning && (run cs).valveOpen) = false := by
  suffices hgen : ∀ (l : List Cmd) (t : DashState),
      (t.isRunning && t.valveOpen) = false →
      (((l.foldl (fun u c => step c u) t).isRunning &&
        (l.foldl (fun u c => step c u) t).valveOpen) = false) by
    exact hgen cs initState rfl
  intro l
  induction l with
  | nil =>
    intro t ht
    simpa using ht
  | cons c l2 ih =>
    intro t ht
    rw [List.foldl_cons]
    exact ih (step c t) (step_mutex c t ht)

end ChemView
